import Mathlib

/-!
Verification of the data-access layer of the admin_panel_backend repository
(an administrative backend for a driving-licence application workflow).

The development shallowly embeds the model module (src/models/userModel.js)
and the applications listing route (src/Routes/Applications.js):

* JavaScript values that flow into the model are embedded as `JSValue`,
  with JS truthiness (`jsFalsy`), `typeof` (`jsTypeof`) and `Array.isArray`
  (`jsIsArray`) translated from JS semantics.
* Each model operation becomes a pure function from the operation's inputs
  and a database state `DBState` to an `OpResult`: the settled value or the
  thrown error message, the resulting database state, and how many SQL
  statements were sent to the pool.  A thrown error before any statement has
  `stmts = 0` and leaves the state unchanged; a statement that the database
  rejects (constraint violation) counts as executed (`stmts = 1`) and leaves
  the state unchanged, mirroring single-statement atomicity.
* Timestamps are abstracted as a `now : Nat` parameter standing for the
  database's CURRENT_TIMESTAMP at statement execution (in seconds, so the
  session TTL arithmetic of the expires_at trigger is `created_at +
  expires_in`).
* Node-postgres parameter serialization is modelled by `textOf` / `toSqlText`
  / `toSqlInt` / `toSqlBool`; claims only exercise these on strings, numbers,
  booleans and null/undefined.
* The SQL ILIKE operator of the listing route is modelled by `likeMatch`
  (case-insensitive, `%` and `_` wildcards; the escape character is not
  modelled, so theorems about search restrict to terms without a backslash).
* JavaScript `new Date(...)` parsing is environment-defined; it enters the
  model as an `isDate : String → Bool` parameter of `saveUserRun`.
-/

/- A JavaScript value as the model module receives it (mutual with its
list and object-field spines so that equality is derivable). `NaN`,
functions and symbols are not modelled; no claim mentions them. -/
mutual
inductive JSValue : Type where
  | null : JSValue
  | undefined : JSValue
  | bool : Bool → JSValue
  | num : Int → JSValue
  | str : String → JSValue
  | arr : JSList → JSValue
  | obj : JSFields → JSValue
deriving DecidableEq

inductive JSList : Type where
  | nil : JSList
  | cons : JSValue → JSList → JSList
deriving DecidableEq

inductive JSFields : Type where
  | nil : JSFields
  | cons : String → JSValue → JSFields → JSFields
deriving DecidableEq
end

/-- JS falsiness: `!v` is true exactly for null, undefined, false, 0 and
the empty string (NaN is outside the model). -/
def jsFalsy : JSValue → Bool
  | .null => true
  | .undefined => true
  | .bool b => !b
  | .num n => n == 0
  | .str s => s.isEmpty
  | .arr _ => false
  | .obj _ => false

/-- JS truthiness. -/
def jsTruthy (v : JSValue) : Bool := !jsFalsy v

/-- JS `typeof v` (note `typeof null = "object"`). -/
def jsTypeof : JSValue → String
  | .null => "object"
  | .undefined => "undefined"
  | .bool _ => "boolean"
  | .num _ => "number"
  | .str _ => "string"
  | .arr _ => "object"
  | .obj _ => "object"

/-- JS `Array.isArray v`. -/
def jsIsArray : JSValue → Bool
  | .arr _ => true
  | _ => false

/-- Text rendering of a parameter bound into a VARCHAR or TEXT column
(node-postgres serialization; claims exercise it on strings). -/
def textOf : JSValue → String
  | .str s => s
  | .num n => toString n
  | .bool b => cond b "true" "false"
  | _ => ""

/-- A parameter bound into a nullable text column: null and undefined
become SQL NULL. -/
def toSqlText : JSValue → Option String
  | .null => none
  | .undefined => none
  | v => some (textOf v)

/-- A parameter bound into a nullable INTEGER column: null and undefined
become SQL NULL; non-numeric values are outside the claims and are
modelled as NULL as well. -/
def toSqlInt : JSValue → Option Int
  | .num n => some n
  | _ => none

/-- A parameter bound into a nullable BOOLEAN column. -/
def toSqlBool : JSValue → Option Bool
  | .bool b => some b
  | _ => none

/-- userModel.js validateRequiredFields: collect the required fields whose
value is falsy and, when any exist, the thrown message listing all of them
joined by a comma (`missingFields.join(', ')`). `none` means validation
passed. -/
def validateRequiredFields (data : String → JSValue) (requiredFields : List String) :
    Option String :=
  let missingFields := requiredFields.filter (fun f => jsFalsy (data f))
  if missingFields.isEmpty then none
  else some ("Missing required fields: " ++ String.intercalate ", " missingFields)

/-- The email regex of userModel.js, `^[^\s@]+@[^\s@]+\.[^\s@]+$`, read as
an executable matcher: exactly one at-sign, a nonempty whitespace-free local
part, and a domain with a dot that has a nonempty part on each side (every
part free of whitespace and at-signs; dots may appear in any part). -/
def emailOk (s : String) : Bool :=
  let cs := s.data
  let lp := cs.takeWhile (fun c => c != '@')
  match cs.dropWhile (fun c => c != '@') with
  | [] => false
  | _ :: dom =>
    dom.count '@' == 0 &&
    !lp.isEmpty && !dom.isEmpty &&
    cs.all (fun c => !c.isWhitespace) &&
    (List.range dom.length).any
      (fun j => decide (1 ≤ j) && decide (j + 1 < dom.length) &&
        (dom.getD j ' ' == '.'))

/-- userModel.js isValidEmail: a falsy email is valid (the field is
optional); a truthy non-string never matches the regex. -/
def isValidEmailJS : JSValue → Bool
  | v => if jsFalsy v then true else
    match v with
    | .str s => emailOk s
    | _ => false

/-- A database error as node-postgres surfaces it: the SQLSTATE code (when
the failure is a database error) and the message. -/
structure SqlError where
  code : Option String
  message : String
deriving DecidableEq

/-- The error translation of userModel.js executeQuery: code 23505
(unique violation), 23503 (foreign-key violation) and 23502 (not-null
violation) become fixed domain messages; every other failure keeps its
message. -/
def executeQueryErrorMessage (e : SqlError) : String :=
  if e.code = some "23505" then "Duplicate entry: Record already exists"
  else if e.code = some "23503" then "Referenced record does not exist"
  else if e.code = some "23502" then "Required field is missing"
  else e.message

/-- The visible outcome of executeQuery: success passes the result through,
failure is rethrown with the translated message. -/
def executeQueryOutcome {ρ : Type} : Except SqlError ρ → Except String ρ
  | .ok r => .ok r
  | .error e => .error (executeQueryErrorMessage e)

/-- A row of the users table. -/
structure UserRow where
  sub : String
  name : String
  email : Option String
  phone : Option String
  date_of_birth : Option String
  address : Option String
  created_at : Nat
  updated_at : Nat
deriving DecidableEq

/-- A row of the licence_categories table. -/
structure CategoryRow where
  category_code : String
  category_label : String
  description : String
  fee : Int
  min_age : Option Int
  vehicle_type : Option String
  is_active : Bool
  created_at : Nat
  updated_at : Nat
deriving DecidableEq

/-- A row of the user_sessions table. `expires_at` is set only by the
set_expires_at trigger. -/
structure SessionRow where
  sub : Option String
  session_id : String
  access_token : Option String
  token_type : Option String
  expires_in : Option Int
  scope : Option String
  created_at : Nat
  expires_at : Option Int
deriving DecidableEq

/-- A row of the medical_certificates table. -/
structure CertRow where
  sub : Option String
  certificate_id : String
  issued_date : String
  expiry_date : String
  doctor_name : String
  hospital : String
  blood_group : Option String
  is_fit_to_drive : Option Bool
  vision_status : Option String
  hearing_status : Option String
  remarks : Option String
  created_at : Nat
  updated_at : Nat
deriving DecidableEq

/-- A row of the applications table (the columns the claims touch; the
remaining denormalized snapshot columns and admin_status carry no claim). -/
structure AppRow where
  sub : String
  application_id : String
  medical_certificate_id : String
  full_name : String
  email : String
  phone : Option String
  date_of_birth : String
  doctor_name : String
  hospital : String
  issued_date : String
  expiry_date : String
  written_test : Option JSValue
  practical_test : Option JSValue
  selected_categories : JSValue
  total_amount : Int
  payment_reference_id : Option String
  payment_transaction_id : Option String
  status : String
  created_at : Nat
  updated_at : Nat
deriving DecidableEq

/-- The database state: which tables exist, and the rows of each table. -/
structure DBState where
  tables : List String
  users : List UserRow
  licence_categories : List CategoryRow
  user_sessions : List SessionRow
  applications : List AppRow
  medical_certificates : List CertRow
deriving DecidableEq

/-- The empty database. -/
def emptyDB : DBState :=
  { tables := [], users := [], licence_categories := [], user_sessions := [],
    applications := [], medical_certificates := [] }

/-- Decidable equality for Except, so that operation outcomes can be
evaluated on concrete inputs. -/
instance {ε α : Type} [DecidableEq ε] [DecidableEq α] : DecidableEq (Except ε α) :=
  fun x y =>
    match x, y with
    | .ok a, .ok b =>
      if h : a = b then isTrue (by rw [h]) else isFalse (by simp [h])
    | .error e, .error f =>
      if h : e = f then isTrue (by rw [h]) else isFalse (by simp [h])
    | .ok _, .error _ => isFalse (by simp)
    | .error _, .ok _ => isFalse (by simp)

/-- The outcome of one model operation: the returned value or thrown
message, the database state afterwards, and how many SQL statements were
executed against the pool. -/
structure OpResult (ρ : Type) where
  result : Except String ρ
  db : DBState
  stmts : Nat
deriving DecidableEq

/-- C4: executeQuery maps a uniqueness violation (23505) to the duplicate
entry message, a foreign-key violation (23503) to the referenced record
does not exist message, a not-null violation (23502) to the required field
missing message, and propagates every other failure with its original
message unchanged. -/
theorem executeQuery_error_translation (e : SqlError) :
    (e.code = some "23505" →
      executeQueryErrorMessage e = "Duplicate entry: Record already exists") ∧
    (e.code = some "23503" →
      executeQueryErrorMessage e = "Referenced record does not exist") ∧
    (e.code = some "23502" →
      executeQueryErrorMessage e = "Required field is missing") ∧
    (e.code ≠ some "23505" → e.code ≠ some "23503" → e.code ≠ some "23502" →
      executeQueryErrorMessage e = e.message) := by
  refine ⟨fun h => ?_, fun h => ?_, fun h => ?_, fun h1 h2 h3 => ?_⟩ <;>
    simp [executeQueryErrorMessage, *]

/-- Witness for C4: the translation evaluated on four concrete failures,
one per hypothesis of the theorem. -/
theorem executeQuery_error_translation_witness :
    executeQueryErrorMessage ⟨some "23505", "raw"⟩ =
      "Duplicate entry: Record already exists" ∧
    executeQueryErrorMessage ⟨some "23503", "raw"⟩ =
      "Referenced record does not exist" ∧
    executeQueryErrorMessage ⟨some "23502", "raw"⟩ =
      "Required field is missing" ∧
    executeQueryErrorMessage ⟨some "57014", "canceling statement due to statement timeout"⟩ =
      "canceling statement due to statement timeout" :=
  ⟨(executeQuery_error_translation ⟨some "23505", "raw"⟩).1 rfl,
   (executeQuery_error_translation ⟨some "23503", "raw"⟩).2.1 rfl,
   (executeQuery_error_translation ⟨some "23502", "raw"⟩).2.2.1 rfl,
   (executeQuery_error_translation
      ⟨some "57014", "canceling statement due to statement timeout"⟩).2.2.2
      (by decide) (by decide) (by decide)⟩

/-- The eight fixed licence categories seeded at startup
(code, label, description, fee, min_age, vehicle_type). -/
def seedCategories : List (String × String × String × Int × Int × String) :=
  [("A1", "A1", "Light Motor Cycle (up to 125cc)", 1500, 18, "Motorcycle"),
   ("A", "A", "Motor Cycle (above 125cc)", 1500, 18, "Motorcycle"),
   ("B1", "B1", "Motor Tricycle", 2000, 18, "Three-wheeler"),
   ("B", "B", "Light Motor Car (up to 3500 kg)", 2500, 18, "Light Vehicle"),
   ("C1", "C1", "Light Motor Lorry (3500 kg to 7500 kg)", 3000, 21, "Medium Vehicle"),
   ("C", "C", "Heavy Motor Lorry (above 7500 kg)", 3500, 25, "Heavy Vehicle"),
   ("D1", "D1", "Mini Bus (up to 16 passengers)", 4000, 21, "Passenger Vehicle"),
   ("D", "D", "Heavy Bus (above 16 passengers)", 4500, 25, "Passenger Vehicle")]

/-- One INSERT ... ON CONFLICT (category_code) DO UPDATE of the seeding
loop: an existing row keeps its created_at and is_active and takes the
seeded label, description, fee, min_age and vehicle_type with updated_at =
CURRENT_TIMESTAMP; otherwise a fresh row is inserted (is_active defaults
to true). -/
def seedOneCategory (now : Nat) (st : DBState)
    (c : String × String × String × Int × Int × String) : DBState :=
  match st.licence_categories.find? (fun r => r.category_code == c.1) with
  | some _ =>
    { st with licence_categories := st.licence_categories.map (fun r =>
        if r.category_code == c.1 then
          { r with category_label := c.2.1, description := c.2.2.1, fee := c.2.2.2.1,
                   min_age := some c.2.2.2.2.1, vehicle_type := some c.2.2.2.2.2,
                   updated_at := now }
        else r) }
  | none =>
    { st with licence_categories := st.licence_categories ++
        [{ category_code := c.1, category_label := c.2.1, description := c.2.2.1,
           fee := c.2.2.2.1, min_age := some c.2.2.2.2.1,
           vehicle_type := some c.2.2.2.2.2, is_active := true,
           created_at := now, updated_at := now }] }

/-- userModel.js seedLicenceCategories: the idempotent upsert of the eight
fixed categories, in order. -/
def seedLicenceCategoriesState (now : Nat) (st : DBState) : DBState :=
  seedCategories.foldl (seedOneCategory now) st

/-- CREATE TABLE IF NOT EXISTS (with its indexes, and for user_sessions
its trigger): records the table name; rows of an existing table are
untouched. -/
def createTableIfNotExists (t : String) (st : DBState) : DBState :=
  if st.tables.contains t then st else { st with tables := st.tables ++ [t] }

/-- The static methods the User class of userModel.js defines.  Note that
`addAdminStatusField`, which initTables calls, is not among them: no such
method exists anywhere in the repository. -/
def userModelStaticMethods : List String :=
  ["logOperation", "isValidEmail", "validateRequiredFields", "executeQuery",
   "createTable", "createLicenceCategoriesTable", "createSessionsTable",
   "createApplicationsTable", "seedLicenceCategories", "initTables",
   "saveUser", "saveMedicalCertificate", "getLicenceCategories",
   "getLicenceCategoryByCode", "addLicenceCategory", "updateLicenceCategory",
   "deleteLicenceCategory", "saveUserSession", "saveApplication",
   "findBySub", "findApplicationById", "getUserApplications",
   "cleanupExpiredSessions", "updateApplicationStatus",
   "createMedicalCertificatesTable", "getApplicationStats"]

/-- userModel.js initTables: BEGIN, the `SELECT 1` connectivity probe,
create-if-absent of users, licence_categories, user_sessions, applications
and medical_certificates, then `this.addAdminStatusField(client)`, then the
category seeding, then COMMIT.  Calling the undefined static method throws
a TypeError, the catch block rolls the transaction back (so an error leaves
the committed state unchanged) and rethrows with the initialization
prefix. -/
def initTables (now : Nat) (st : DBState) : Except String DBState :=
  let st1 := createTableIfNotExists "users" st
  let st2 := createTableIfNotExists "licence_categories" st1
  let st3 := createTableIfNotExists "user_sessions" st2
  let st4 := createTableIfNotExists "applications" st3
  let st5 := createTableIfNotExists "medical_certificates" st4
  if userModelStaticMethods.contains "addAdminStatusField" then
    .ok (seedLicenceCategoriesState now st5)
  else
    .error "Failed to initialize database tables: this.addAdminStatusField is not a function"

/-- Whether `new Date(v)` yields a valid date: numbers are epoch
milliseconds (always valid), strings parse per the JS environment
(`isDate`), any other truthy value is invalid.  Only consulted when the
value is truthy. -/
def jsDateParses (isDate : String → Bool) : JSValue → Bool
  | .str s => isDate s
  | .num _ => true
  | _ => false

/-- userModel.js saveUser: required-field check on sub and name, email
format check, date_of_birth format check when provided, then INSERT ... ON
CONFLICT (sub) DO UPDATE SET name, email, phone, date_of_birth, address,
updated_at = CURRENT_TIMESTAMP (created_at untouched) RETURNING *. -/
def saveUserRun (isDate : String → Bool) (now : Nat) (userData : String → JSValue)
    (st : DBState) : OpResult UserRow :=
  match validateRequiredFields userData ["sub", "name"] with
  | some msg => ⟨.error ("Failed to save user: " ++ msg), st, 0⟩
  | none =>
    if !isValidEmailJS (userData "email") then
      ⟨.error "Failed to save user: Invalid email format", st, 0⟩
    else if jsTruthy (userData "date_of_birth") &&
        !jsDateParses isDate (userData "date_of_birth") then
      ⟨.error "Failed to save user: Invalid date_of_birth format. Use YYYY-MM-DD", st, 0⟩
    else
      let key := textOf (userData "sub")
      match st.users.find? (fun r => r.sub == key) with
      | some r0 =>
        let r1 : UserRow :=
          { r0 with name := textOf (userData "name"),
                    email := toSqlText (userData "email"),
                    phone := toSqlText (userData "phone"),
                    date_of_birth := toSqlText (userData "date_of_birth"),
                    address := toSqlText (userData "address"),
                    updated_at := now }
        ⟨.ok r1,
         { st with users := st.users.map (fun r => if r.sub == key then r1 else r) }, 1⟩
      | none =>
        let r1 : UserRow :=
          { sub := key, name := textOf (userData "name"),
            email := toSqlText (userData "email"),
            phone := toSqlText (userData "phone"),
            date_of_birth := toSqlText (userData "date_of_birth"),
            address := toSqlText (userData "address"),
            created_at := now, updated_at := now }
        ⟨.ok r1, { st with users := st.users ++ [r1] }, 1⟩

/-- userModel.js saveMedicalCertificate: required-field check, then INSERT
... ON CONFLICT (certificate_id) DO UPDATE of the certificate columns with
updated_at = CURRENT_TIMESTAMP.  The sub column references users(sub): a
fresh insert with a non-NULL sub that matches no user is a foreign-key
violation (an existing row's sub is not updated, so the conflict branch
re-checks nothing). -/
def saveMedicalCertificateRun (userId : JSValue) (certData : String → JSValue)
    (now : Nat) (st : DBState) : OpResult CertRow :=
  match validateRequiredFields certData
      ["certificate_id", "issued_date", "expiry_date", "doctor_name", "hospital"] with
  | some msg => ⟨.error ("Failed to save medical certificate: " ++ msg), st, 0⟩
  | none =>
    let key := textOf (certData "certificate_id")
    match st.medical_certificates.find? (fun r => r.certificate_id == key) with
    | some r0 =>
      let r1 : CertRow :=
        { r0 with issued_date := textOf (certData "issued_date"),
                  expiry_date := textOf (certData "expiry_date"),
                  doctor_name := textOf (certData "doctor_name"),
                  hospital := textOf (certData "hospital"),
                  blood_group := toSqlText (certData "blood_group"),
                  is_fit_to_drive := toSqlBool (certData "is_fit_to_drive"),
                  vision_status := toSqlText (certData "vision_status"),
                  hearing_status := toSqlText (certData "hearing_status"),
                  remarks := toSqlText (certData "remarks"),
                  updated_at := now }
      ⟨.ok r1,
       { st with medical_certificates := (st.medical_certificates.map
           (fun r => if r.certificate_id == key then r1 else r)) }, 1⟩
    | none =>
      if (match toSqlText userId with
          | some s => !st.users.any (fun u => u.sub == s)
          | none => false) then
        ⟨.error "Failed to save medical certificate: Referenced record does not exist",
         st, 1⟩
      else
        let r1 : CertRow :=
          { sub := toSqlText userId, certificate_id := key,
            issued_date := textOf (certData "issued_date"),
            expiry_date := textOf (certData "expiry_date"),
            doctor_name := textOf (certData "doctor_name"),
            hospital := textOf (certData "hospital"),
            blood_group := toSqlText (certData "blood_group"),
            is_fit_to_drive := toSqlBool (certData "is_fit_to_drive"),
            vision_status := toSqlText (certData "vision_status"),
            hearing_status := toSqlText (certData "hearing_status"),
            remarks := toSqlText (certData "remarks"),
            created_at := now, updated_at := now }
        ⟨.ok r1,
         { st with medical_certificates := st.medical_certificates ++ [r1] }, 1⟩

/-- The set_expires_at trigger of createSessionsTable: BEFORE INSERT OR
UPDATE, NEW.expires_at = NEW.created_at + NEW.expires_in seconds (NULL
expires_in yields NULL, as SQL interval arithmetic propagates NULL). -/
def sessionTrigger (r : SessionRow) : SessionRow :=
  { r with expires_at := r.expires_in.map (fun e => (r.created_at : Int) + e) }

/-- The column list of the saveUserSession INSERT: the calling code never
supplies expires_at. -/
def saveUserSessionColumns : List String :=
  ["sub", "session_id", "access_token", "token_type", "expires_in", "scope"]

/-- userModel.js saveUserSession: required-field check on session_id and
access_token, expires_in defaulting to 3600 when the property is
undefined, then INSERT ... ON CONFLICT (session_id) DO UPDATE SET
access_token, token_type, expires_in, scope, created_at =
CURRENT_TIMESTAMP (sub untouched).  The trigger recomputes expires_at on
both branches.  A fresh insert with a non-NULL sub that matches no user is
a foreign-key violation. -/
def saveUserSessionRun (userId : JSValue) (sessionData : String → JSValue)
    (now : Nat) (st : DBState) : OpResult SessionRow :=
  match validateRequiredFields sessionData ["session_id", "access_token"] with
  | some msg => ⟨.error ("Failed to save user session: " ++ msg), st, 0⟩
  | none =>
    let key := textOf (sessionData "session_id")
    let effExpiresIn := match sessionData "expires_in" with
      | .undefined => JSValue.num 3600
      | v => v
    match st.user_sessions.find? (fun r => r.session_id == key) with
    | some r0 =>
      let r1 : SessionRow := sessionTrigger
        { r0 with access_token := toSqlText (sessionData "access_token"),
                  token_type := toSqlText (sessionData "token_type"),
                  expires_in := toSqlInt effExpiresIn,
                  scope := toSqlText (sessionData "scope"),
                  created_at := now }
      ⟨.ok r1,
       { st with user_sessions := (st.user_sessions.map
           (fun r => if r.session_id == key then r1 else r)) }, 1⟩
    | none =>
      if (match toSqlText userId with
          | some s => !st.users.any (fun u => u.sub == s)
          | none => false) then
        ⟨.error "Failed to save user session: Referenced record does not exist", st, 1⟩
      else
        let r1 : SessionRow := sessionTrigger
          { sub := toSqlText userId, session_id := key,
            access_token := toSqlText (sessionData "access_token"),
            token_type := toSqlText (sessionData "token_type"),
            expires_in := toSqlInt effExpiresIn,
            scope := toSqlText (sessionData "scope"),
            created_at := now, expires_at := none }
        ⟨.ok r1, { st with user_sessions := st.user_sessions ++ [r1] }, 1⟩

/-- userModel.js addLicenceCategory: required-field check, fee and min_age
range checks, then a plain INSERT (no ON CONFLICT clause): an existing
category_code is a unique violation that executeQuery translates to the
duplicate entry message. -/
def addLicenceCategoryRun (categoryData : String → JSValue) (now : Nat)
    (st : DBState) : OpResult CategoryRow :=
  match validateRequiredFields categoryData
      ["category_code", "category_label", "description", "fee"] with
  | some msg => ⟨.error ("Failed to add licence category: " ++ msg), st, 0⟩
  | none =>
    if (match categoryData "fee" with
        | .num n => decide (n ≤ 0)
        | _ => false) then
      ⟨.error "Failed to add licence category: Fee must be a positive number", st, 0⟩
    else if jsTruthy (categoryData "min_age") &&
        (match categoryData "min_age" with
         | .num n => decide (n < 16) || decide (n > 100)
         | _ => false) then
      ⟨.error "Failed to add licence category: Minimum age must be between 16 and 100",
       st, 0⟩
    else
      let key := textOf (categoryData "category_code")
      if st.licence_categories.any (fun r => r.category_code == key) then
        ⟨.error "Failed to add licence category: Duplicate entry: Record already exists",
         st, 1⟩
      else
        let r1 : CategoryRow :=
          { category_code := key,
            category_label := textOf (categoryData "category_label"),
            description := textOf (categoryData "description"),
            fee := (match categoryData "fee" with | .num n => n | _ => 0),
            min_age := toSqlInt (categoryData "min_age"),
            vehicle_type := toSqlText (categoryData "vehicle_type"),
            is_active := true, created_at := now, updated_at := now }
        ⟨.ok r1, { st with licence_categories := st.licence_categories ++ [r1] }, 1⟩

/-- The status values of the applications table, as listed in
saveApplication and updateApplicationStatus. -/
def validStatuses : List String :=
  ["pending", "submitted", "approved", "rejected", "cancelled"]

/-- JS `validStatuses.includes(status)`: strict equality, so only one of
the five strings passes. -/
def statusInSet : JSValue → Bool
  | .str s => validStatuses.contains s
  | _ => false

/-- The required-field list of saveApplication. -/
def saveApplicationRequiredFields : List String :=
  ["sub", "application_id", "selectCategories", "fullName", "email", "dob",
   "doctorName", "hospital", "issuedDate", "expiryDate"]

/-- userModel.js saveApplication: required-field check, selectCategories
shape check, total_amount (default 0) non-negativity, status (default
pending) enumeration check, writtenTest/practicalTest shape checks, then a
plain INSERT (no ON CONFLICT).  A NULL medical_certificate_id violates NOT
NULL; an existing application_id is a unique violation; both are
translated by executeQuery and rethrown with the save prefix. -/
def saveApplicationRun (applicationData : String → JSValue) (now : Nat)
    (st : DBState) : OpResult AppRow :=
  match validateRequiredFields applicationData saveApplicationRequiredFields with
  | some msg => ⟨.error ("Failed to save application: " ++ msg), st, 0⟩
  | none =>
    let sc := applicationData "selectCategories"
    if !jsIsArray sc && jsTypeof sc != "object" then
      ⟨.error "Failed to save application: selected_categories must be a valid array or JSON object",
       st, 0⟩
    else
      let effTotal := match applicationData "total_amount" with
        | .undefined => JSValue.num 0
        | v => v
      if (match effTotal with | .num n => decide (n < 0) | _ => false) then
        ⟨.error "Failed to save application: Total amount must be a non-negative number",
         st, 0⟩
      else
        let effStatus := match applicationData "status" with
          | .undefined => JSValue.str "pending"
          | v => v
        if !statusInSet effStatus then
          ⟨.error ("Failed to save application: Invalid status. Must be one of: " ++
            String.intercalate ", " validStatuses), st, 0⟩
        else
          let wt := applicationData "writtenTest"
          let pt := applicationData "practicalTest"
          if jsTruthy wt && jsTypeof wt != "object" then
            ⟨.error "Failed to save application: writtenTest must be a valid JSON object",
             st, 0⟩
          else if jsTruthy pt && jsTypeof pt != "object" then
            ⟨.error "Failed to save application: practicalTest must be a valid JSON object",
             st, 0⟩
          else
            match toSqlText (applicationData "medical_certificate_id") with
            | none =>
              ⟨.error "Failed to save application: Required field is missing", st, 1⟩
            | some mcid =>
              let key := textOf (applicationData "application_id")
              if st.applications.any (fun a => a.application_id == key) then
                ⟨.error "Failed to save application: Duplicate entry: Record already exists",
                 st, 1⟩
              else
                let r1 : AppRow :=
                  { sub := textOf (applicationData "sub"),
                    application_id := key,
                    medical_certificate_id := mcid,
                    full_name := textOf (applicationData "fullName"),
                    email := textOf (applicationData "email"),
                    phone := toSqlText (applicationData "phone"),
                    date_of_birth := textOf (applicationData "dob"),
                    doctor_name := textOf (applicationData "doctorName"),
                    hospital := textOf (applicationData "hospital"),
                    issued_date := textOf (applicationData "issuedDate"),
                    expiry_date := textOf (applicationData "expiryDate"),
                    written_test := if jsTruthy wt then some wt else none,
                    practical_test := if jsTruthy pt then some pt else none,
                    selected_categories := sc,
                    total_amount := (match effTotal with | .num n => n | _ => 0),
                    payment_reference_id := toSqlText (applicationData "payment_reference_id"),
                    payment_transaction_id := toSqlText (applicationData "payment_transaction_id"),
                    status := textOf effStatus,
                    created_at := now, updated_at := now }
                ⟨.ok r1, { st with applications := st.applications ++ [r1] }, 1⟩

/-- userModel.js findBySub: falsy sub is a validation error; otherwise the
SELECT by sub runs and `result.rows[0]` is returned as-is — an empty
result yields undefined (`none`), with no not-found error. -/
def findBySubRun (sub : JSValue) (st : DBState) : OpResult (Option UserRow) :=
  if jsFalsy sub then ⟨.error "Failed to find user: sub is required", st, 0⟩
  else ⟨.ok (st.users.find? (fun r => r.sub == textOf sub)), st, 1⟩

/-- userModel.js findApplicationById: falsy applicationId is a validation
error; the SELECT joins applications to users on sub, so a row is found
only when a matching user exists; an empty result throws the not-found
message (which the surrounding catch wraps with the same prefix).  The
joined user columns carry no claim, so the application row is returned. -/
def findApplicationByIdRun (applicationId : JSValue) (st : DBState) : OpResult AppRow :=
  if jsFalsy applicationId then
    ⟨.error "Failed to find application: applicationId is required", st, 0⟩
  else
    let key := textOf applicationId
    match st.applications.find? (fun a =>
        a.application_id == key && st.users.any (fun u => u.sub == a.sub)) with
    | none =>
      ⟨.error ("Failed to find application: Application '" ++ key ++ "' not found"),
       st, 1⟩
    | some a => ⟨.ok a, st, 1⟩

/-- userModel.js getLicenceCategoryByCode: falsy categoryCode is a
validation error; an empty SELECT result throws the not-found message,
wrapped by the catch with the get prefix. -/
def getLicenceCategoryByCodeRun (categoryCode : JSValue) (st : DBState) :
    OpResult CategoryRow :=
  if jsFalsy categoryCode then
    ⟨.error "Failed to get licence category: categoryCode is required", st, 0⟩
  else
    let key := textOf categoryCode
    match st.licence_categories.find? (fun r => r.category_code == key) with
    | none =>
      ⟨.error ("Failed to get licence category: Licence category '" ++ key ++
        "' not found"), st, 1⟩
    | some r => ⟨.ok r, st, 1⟩

/-- userModel.js updateApplicationStatus: falsy applicationId or status is
a validation error; a status outside validStatuses is a validation error;
both are thrown before any statement.  Otherwise the UPDATE by
application_id runs: zero updated rows throw the not-found message,
otherwise the updated row is returned. -/
def updateApplicationStatusRun (applicationId status : JSValue) (now : Nat)
    (st : DBState) : OpResult AppRow :=
  if jsFalsy applicationId || jsFalsy status then
    ⟨.error "Failed to update application status: applicationId and status are required",
     st, 0⟩
  else if !statusInSet status then
    ⟨.error ("Failed to update application status: Invalid status. Must be one of: " ++
      String.intercalate ", " validStatuses), st, 0⟩
  else
    let key := textOf applicationId
    match st.applications.find? (fun a => a.application_id == key) with
    | none =>
      ⟨.error ("Failed to update application status: Application '" ++ key ++
        "' not found"), st, 1⟩
    | some a0 =>
      let a1 : AppRow := { a0 with status := textOf status, updated_at := now }
      ⟨.ok a1,
       { st with applications := (st.applications.map
           (fun a => if a.application_id == key then a1 else a)) }, 1⟩

/-- SQL LIKE/ILIKE pattern matching over characters, case-insensitively:
`%` matches any sequence (any member of the string's suffix list after it
works), `_` matches exactly one character, any other pattern character
matches one character up to lower-casing.  The escape character is not
modelled. -/
def likeMatch : List Char → List Char → Bool
  | [], s => s.isEmpty
  | p0 :: p, s =>
    if p0 = '%' then s.tails.any (fun s2 => likeMatch p s2)
    else
      match s with
      | [] => false
      | c :: s2 =>
        (if p0 = '_' then true else p0.toLower == c.toLower) && likeMatch p s2

/-- `col ILIKE '%' || term || '%'` as the route builds it. -/
def ilikeContains (term col : String) : Bool :=
  likeMatch (( '%' :: term.data) ++ [ '%' ]) col.data

/-- Case-insensitive substring containment (the spec's reading of the
search filter), executable: some suffix of the lower-cased haystack starts
with the lower-cased needle. -/
def containsCI (needle hay : String) : Bool :=
  (hay.data.map Char.toLower).tails.any
    (fun t => (needle.data.map Char.toLower).isPrefixOf t)

/-- A pattern character with no wildcard or escape meaning. -/
def plainPatternChar (c : Char) : Bool :=
  c != '%' && c != '_' && c != '\\'

/-- The query parameters of the applications listing route, after Express
query parsing, with the route's destructuring defaults. -/
structure ListParams where
  page : Nat := 1
  limit : Nat := 100
  status : Option String := none
  search : Option String := none
  sortBy : String := "created_at"
  sortOrder : String := "DESC"
deriving DecidableEq

/-- The optional exact-match status filter: applied only when the status
parameter is truthy and not "all". -/
def statusCond (status : Option String) (a : AppRow) : Bool :=
  match status with
  | none => true
  | some v => if v = "" || v = "all" then true else a.status == v

/-- The optional search filter: applied only when the search parameter is
truthy; one pattern parameter is matched with ILIKE against five
columns. -/
def searchCond (search : Option String) (a : AppRow) : Bool :=
  match search with
  | none => true
  | some s =>
    if s = "" then true
    else
      ilikeContains s a.application_id ||
      ilikeContains s a.medical_certificate_id ||
      ilikeContains s a.sub ||
      ilikeContains s a.full_name ||
      ilikeContains s a.email

/-- The allow-listed sort columns of the listing route. -/
def validSortColumns : List String :=
  ["created_at", "updated_at", "full_name", "status", "expiry_date",
   "application_id", "medical_certificate_id"]

/-- Row comparison for ORDER BY on one allow-listed column (non-key
columns are never reached: the route falls back to created_at first). -/
def colLe (col : String) (a b : AppRow) : Bool :=
  if col = "updated_at" then decide (a.updated_at ≤ b.updated_at)
  else if col = "full_name" then decide (a.full_name ≤ b.full_name)
  else if col = "status" then decide (a.status ≤ b.status)
  else if col = "expiry_date" then decide (a.expiry_date ≤ b.expiry_date)
  else if col = "application_id" then decide (a.application_id ≤ b.application_id)
  else if col = "medical_certificate_id" then
    decide (a.medical_certificate_id ≤ b.medical_certificate_id)
  else decide (a.created_at ≤ b.created_at)

/-- Insertion into a sorted row list. -/
def insertRow (le : AppRow → AppRow → Bool) (a : AppRow) : List AppRow → List AppRow
  | [] => [a]
  | b :: l => if le a b then a :: b :: l else b :: insertRow le a l

/-- ORDER BY as a deterministic insertion sort under `le`. -/
def sortRows (le : AppRow → AppRow → Bool) : List AppRow → List AppRow
  | [] => []
  | a :: l => insertRow le a (sortRows le l)

/-- ORDER BY col ASC/DESC. -/
def orderRows (col : String) (asc : Bool) (l : List AppRow) : List AppRow :=
  sortRows (fun a b => if asc then colLe col a b else colLe col b a) l

/-- LIMIT/OFFSET pagination: OFFSET skips, LIMIT caps. -/
def paginate (limit offset : Nat) (l : List AppRow) : List AppRow :=
  (l.drop offset).take limit

/-- The pagination object the route returns:
totalPages = Math.ceil(totalCount / limit), hasNext = page < totalPages,
hasPrev = page > 1. -/
structure Pagination where
  currentPage : Nat
  totalPages : Nat
  totalCount : Nat
  hasNext : Bool
  hasPrev : Bool
deriving DecidableEq

/-- Build the pagination object (Nat ceiling division; the claims never
use limit = 0). -/
def mkPagination (page limit totalCount : Nat) : Pagination :=
  let totalPages := (totalCount + limit - 1) / limit
  { currentPage := page, totalPages := totalPages, totalCount := totalCount,
    hasNext := decide (page < totalPages), hasPrev := decide (page > 1) }

/-- The listing route's response body. -/
structure ListResponse where
  applications : List AppRow
  pagination : Pagination
deriving DecidableEq

/-- The operation labels under which the listing route executes its four
queries; `fails` says which executions the database rejects (timeout,
malformed statement, connection loss — the cause is environmental). -/
def unfilteredListing (page limit : Nat) (st : DBState) : ListResponse :=
  { applications := paginate limit ((page - 1) * limit)
      (orderRows "created_at" false st.applications),
    pagination := mkPagination page limit st.applications.length }

/-- Routes/Applications.js GET /: builds the filtered page and count
queries (status exact match, five-column ILIKE search, allow-listed sort
column falling back to created_at, ASC/DESC, LIMIT/OFFSET), executes them
with labels "Get applications" and "Count applications"; on any failure of
that pair it falls back to the unfiltered page and count ("Get
applications simple" ORDER BY created_at DESC with the same limit and
offset, and "Count applications simple"); only a failure of the fallback
pair itself reaches the error middleware. -/
def listApplicationsHandler (p : ListParams) (st : DBState)
    (fails : String → Bool) : Except String ListResponse :=
  let offset := (p.page - 1) * p.limit
  let filtered := st.applications.filter
    (fun a => statusCond p.status a && searchCond p.search a)
  let sortColumn := if validSortColumns.contains p.sortBy then p.sortBy else "created_at"
  let asc := p.sortOrder.data.map Char.toUpper == "ASC".data
  if fails "Get applications" || fails "Count applications" then
    if fails "Get applications simple" || fails "Count applications simple" then
      .error "Internal server error"
    else
      .ok (unfilteredListing p.page p.limit st)
  else
    .ok { applications := paginate p.limit offset (orderRows sortColumn asc filtered),
          pagination := mkPagination p.page p.limit filtered.length }

/-- C1 (the code at the failing input): initTables never reaches the
seeding step or COMMIT: after the connectivity probe and the five
create-if-absent steps it calls the static method addAdminStatusField,
which is defined nowhere in the repository, so the call throws a
TypeError, the transaction rolls back, and the entry point rethrows the
initialization failure — on every input. -/
theorem initTables_always_fails (now : Nat) (st : DBState) :
    initTables now st =
      .error "Failed to initialize database tables: this.addAdminStatusField is not a function" := by
  simp only [initTables]
  rw [if_neg (by decide)]

/-- Two strings differ when they differ at one position. -/
theorem string_ne_of_getElem (s t : String) (n : Nat)
    (h : s.data[n]? ≠ t.data[n]?) : s ≠ t :=
  fun he => h (by rw [he])

/-- The not-found message of findApplicationById differs from its
validation-failure message, whatever the key: position 28 holds a capital
A in one and a lowercase a in the other. -/
theorem app_notFound_ne_validation (x : String) :
    ("Failed to find application: Application '" ++ x ++ "' not found") ≠
      "Failed to find application: applicationId is required" := by
  apply string_ne_of_getElem _ _ 28
  rw [String.data_append, String.data_append]
  rw [List.getElem?_append_left (by simp)]
  rw [List.getElem?_append_left (by decide)]
  decide

/-- The not-found message of getLicenceCategoryByCode differs from its
validation-failure message, whatever the key. -/
theorem category_notFound_ne_validation (x : String) :
    ("Failed to get licence category: Licence category '" ++ x ++ "' not found") ≠
      "Failed to get licence category: categoryCode is required" := by
  apply string_ne_of_getElem _ _ 32
  rw [String.data_append, String.data_append]
  rw [List.getElem?_append_left (by simp)]
  rw [List.getElem?_append_left (by decide)]
  decide

/-- C2 counterexample: on the empty database, the by-key lookup findBySub
with a truthy key and an empty result returns ok-undefined (an absent
value) and raises no error at all, so it is false that every by-key
lookup operation raises a not-found error on an empty result. -/
theorem findBySub_empty_returns_undefined :
    findBySubRun (JSValue.str "user-1") emptyDB = ⟨.ok none, emptyDB, 1⟩ := rfl

/-- C2 amended: on an empty result, findApplicationById and
getLicenceCategoryByCode raise a not-found error distinct from their
validation-failure errors, while findBySub raises nothing and returns the
absent value (undefined). -/
theorem byKeyLookup_empty_result (st : DBState) (appId code sub : JSValue)
    (hA : jsTruthy appId = true) (hC : jsTruthy code = true)
    (hS : jsTruthy sub = true)
    (hAnone : st.applications.find? (fun a =>
      a.application_id == textOf appId && st.users.any (fun u => u.sub == a.sub)) = none)
    (hCnone : st.licence_categories.find?
      (fun r => r.category_code == textOf code) = none)
    (hSnone : st.users.find? (fun r => r.sub == textOf sub) = none) :
    (findApplicationByIdRun appId st).result =
      .error ("Failed to find application: Application '" ++ textOf appId ++
        "' not found") ∧
    ("Failed to find application: Application '" ++ textOf appId ++ "' not found") ≠
      "Failed to find application: applicationId is required" ∧
    (getLicenceCategoryByCodeRun code st).result =
      .error ("Failed to get licence category: Licence category '" ++ textOf code ++
        "' not found") ∧
    ("Failed to get licence category: Licence category '" ++ textOf code ++
      "' not found") ≠
      "Failed to get licence category: categoryCode is required" ∧
    (findBySubRun sub st).result = .ok none := by
  have hA' : jsFalsy appId = false := by
    have := hA; unfold jsTruthy at this; simpa using this
  have hC' : jsFalsy code = false := by
    have := hC; unfold jsTruthy at this; simpa using this
  have hS' : jsFalsy sub = false := by
    have := hS; unfold jsTruthy at this; simpa using this
  refine ⟨?_, app_notFound_ne_validation _, ?_, category_notFound_ne_validation _, ?_⟩
  · simp [findApplicationByIdRun, hA', hAnone]
  · simp [getLicenceCategoryByCodeRun, hC', hCnone]
  · simp [findBySubRun, hS', hSnone]

/-- Witness for the amended C2 on the empty database with string keys. -/
theorem byKeyLookup_empty_result_witness :
    (findApplicationByIdRun (JSValue.str "APP-9") emptyDB).result =
      .error "Failed to find application: Application 'APP-9' not found" ∧
    ("Failed to find application: Application 'APP-9' not found" ≠
      "Failed to find application: applicationId is required") ∧
    (getLicenceCategoryByCodeRun (JSValue.str "Z9") emptyDB).result =
      .error "Failed to get licence category: Licence category 'Z9' not found" ∧
    ("Failed to get licence category: Licence category 'Z9' not found" ≠
      "Failed to get licence category: categoryCode is required") ∧
    (findBySubRun (JSValue.str "nobody") emptyDB).result = .ok none := by
  have h := byKeyLookup_empty_result emptyDB (JSValue.str "APP-9") (JSValue.str "Z9")
    (JSValue.str "nobody") (by decide) (by decide) (by decide) rfl rfl rfl
  exact h

/-- C8: updateApplicationStatus with a status outside the enumerated set
fails with a validation error (the required-fields message when the status
or id is falsy, the invalid-status message otherwise) before any SQL
statement executes, leaving the state unchanged. -/
theorem updateApplicationStatus_invalid_status (applicationId status : JSValue)
    (now : Nat) (st : DBState) (h : statusInSet status = false) :
    updateApplicationStatusRun applicationId status now st =
      ⟨.error (if jsFalsy applicationId || jsFalsy status then
          "Failed to update application status: applicationId and status are required"
        else
          "Failed to update application status: Invalid status. Must be one of: " ++
            String.intercalate ", " validStatuses),
       st, 0⟩ := by
  unfold updateApplicationStatusRun
  by_cases hf : (jsFalsy applicationId || jsFalsy status) = true
  · simp [hf]
  · simp only [Bool.not_eq_true] at hf
    simp [hf, h]

/-- Witness for C8: the status "completed" is outside the set; the call
performs no write and returns the invalid-status validation error. -/
theorem updateApplicationStatus_invalid_status_witness :
    statusInSet (JSValue.str "completed") = false ∧
    updateApplicationStatusRun (JSValue.str "APP-1") (JSValue.str "completed") 5 emptyDB =
      ⟨.error ("Failed to update application status: Invalid status. Must be one of: " ++
        String.intercalate ", " validStatuses), emptyDB, 0⟩ := by
  refine ⟨by decide, ?_⟩
  rw [updateApplicationStatus_invalid_status _ _ _ _ (by decide)]
  decide

/-- C10: the required-field presence check treats any falsy value as
absent: a required field supplied as the empty string, 0, false or null
lands in the single Missing required fields message exactly as if it had
been omitted (replacing it by undefined changes nothing), and
saveApplication fails before any statement executes, leaving the state
unchanged. -/
theorem requiredField_falsy_as_missing (applicationData : String → JSValue)
    (f : String) (now : Nat) (st : DBState)
    (hf : f ∈ saveApplicationRequiredFields)
    (hv : jsFalsy (applicationData f) = true) :
    (saveApplicationRun applicationData now st).db = st ∧
    (saveApplicationRun applicationData now st).stmts = 0 ∧
    (saveApplicationRun applicationData now st).result =
      .error ("Failed to save application: Missing required fields: " ++
        String.intercalate ", "
          (saveApplicationRequiredFields.filter (fun g => jsFalsy (applicationData g)))) ∧
    f ∈ saveApplicationRequiredFields.filter (fun g => jsFalsy (applicationData g)) ∧
    saveApplicationRun applicationData now st =
      saveApplicationRun
        (fun g => if g = f then JSValue.undefined else applicationData g) now st := by
  have hmem : f ∈ saveApplicationRequiredFields.filter
      (fun g => jsFalsy (applicationData g)) :=
    List.mem_filter.2 ⟨hf, hv⟩
  have hne : (saveApplicationRequiredFields.filter
      (fun g => jsFalsy (applicationData g))).isEmpty = false := by
    cases hE : (saveApplicationRequiredFields.filter
        (fun g => jsFalsy (applicationData g))).isEmpty
    · rfl
    · exact absurd (List.isEmpty_iff.mp hE ▸ hmem) (List.not_mem_nil f)
  have hfil : saveApplicationRequiredFields.filter
        (fun g => jsFalsy ((fun g => if g = f then JSValue.undefined else
          applicationData g) g)) =
      saveApplicationRequiredFields.filter (fun g => jsFalsy (applicationData g)) := by
    refine List.filter_congr (fun g _ => ?_)
    by_cases hgf : g = f
    · subst hgf
      show jsFalsy (if g = g then JSValue.undefined else applicationData g) =
        jsFalsy (applicationData g)
      rw [if_pos rfl, hv]
      rfl
    · simp [hgf]
  refine ⟨?_, ?_, ?_, hmem, ?_⟩
  · simp [saveApplicationRun, validateRequiredFields, hne]
  · simp [saveApplicationRun, validateRequiredFields, hne]
  · simp [saveApplicationRun, validateRequiredFields, hne]
    rw [← String.append_assoc]
    rfl
  · simp [saveApplicationRun, validateRequiredFields, hne, hfil]

/-- A saveApplication payload whose email is supplied but empty (falsy):
every other required field is truthy. -/
def c10data : String → JSValue := fun g =>
  if g = "sub" then JSValue.str "u1"
  else if g = "application_id" then JSValue.str "APP1"
  else if g = "selectCategories" then JSValue.arr JSList.nil
  else if g = "fullName" then JSValue.str "John Doe"
  else if g = "email" then JSValue.str ""
  else if g = "dob" then JSValue.str "1990-01-01"
  else if g = "doctorName" then JSValue.str "Dr. Smith"
  else if g = "hospital" then JSValue.str "City Hospital"
  else if g = "issuedDate" then JSValue.str "2024-01-01"
  else if g = "expiryDate" then JSValue.str "2025-01-01"
  else JSValue.undefined

/-- Witness for C10: an empty-string email is reported as the missing
field and the save executes no statement. -/
theorem requiredField_falsy_as_missing_witness :
    (saveApplicationRun c10data 7 emptyDB).result =
      .error "Failed to save application: Missing required fields: email" ∧
    (saveApplicationRun c10data 7 emptyDB).stmts = 0 ∧
    (saveApplicationRun c10data 7 emptyDB).db = emptyDB :=
  ⟨((requiredField_falsy_as_missing c10data "email" 7 emptyDB (by decide)
      (by decide)).2.2.1).trans (by decide),
   (requiredField_falsy_as_missing c10data "email" 7 emptyDB (by decide)
      (by decide)).2.1,
   (requiredField_falsy_as_missing c10data "email" 7 emptyDB (by decide)
      (by decide)).1⟩

/-- C7: a second saveUser with an existing sub takes the ON CONFLICT
branch: every mutable column (name, email, phone, date_of_birth, address)
is set to the newly supplied value, updated_at becomes the statement's
CURRENT_TIMESTAMP, the row is updated in place, and created_at is not
among the updated columns, so it stays at the stored row's value. -/
theorem saveUser_upsert_existing (isDate : String → Bool) (now : Nat)
    (userData : String → JSValue) (st : DBState) (r0 : UserRow)
    (hval : validateRequiredFields userData ["sub", "name"] = none)
    (hemail : isValidEmailJS (userData "email") = true)
    (hdob : (jsTruthy (userData "date_of_birth") &&
      !jsDateParses isDate (userData "date_of_birth")) = false)
    (hfind : st.users.find? (fun r => r.sub == textOf (userData "sub")) = some r0) :
    saveUserRun isDate now userData st =
      ⟨.ok { r0 with name := textOf (userData "name"),
                     email := toSqlText (userData "email"),
                     phone := toSqlText (userData "phone"),
                     date_of_birth := toSqlText (userData "date_of_birth"),
                     address := toSqlText (userData "address"),
                     updated_at := now },
       { st with users := (st.users.map (fun r =>
           if r.sub == textOf (userData "sub") then
             { r0 with name := textOf (userData "name"),
                       email := toSqlText (userData "email"),
                       phone := toSqlText (userData "phone"),
                       date_of_birth := toSqlText (userData "date_of_birth"),
                       address := toSqlText (userData "address"),
                       updated_at := now }
           else r)) }, 1⟩ ∧
    ({ r0 with name := textOf (userData "name"),
               email := toSqlText (userData "email"),
               phone := toSqlText (userData "phone"),
               date_of_birth := toSqlText (userData "date_of_birth"),
               address := toSqlText (userData "address"),
               updated_at := now } : UserRow).created_at = r0.created_at := by
  constructor
  · simp [saveUserRun, hval, hemail, hdob, hfind]
  · rfl

/-- A user row stored before the second upsert of the C7 witness. -/
def c7row : UserRow :=
  { sub := "u1", name := "Old Name", email := some "old@example.com",
    phone := none, date_of_birth := none, address := none,
    created_at := 100, updated_at := 100 }

/-- The second saveUser payload of the C7 witness. -/
def c7data : String → JSValue := fun g =>
  if g = "sub" then JSValue.str "u1"
  else if g = "name" then JSValue.str "New Name"
  else if g = "email" then JSValue.str "new@example.com"
  else if g = "phone" then JSValue.str "+123"
  else if g = "address" then JSValue.str "1 Main St"
  else JSValue.undefined

/-- Witness for C7: upserting sub u1 again updates all mutable fields,
sets updated_at to the new statement time 200, and keeps created_at =
100. -/
theorem saveUser_upsert_existing_witness :
    saveUserRun (fun _ => true) 200 c7data
        { emptyDB with users := [c7row] } =
      ⟨.ok { sub := "u1", name := "New Name", email := some "new@example.com",
             phone := some "+123", date_of_birth := none,
             address := some "1 Main St", created_at := 100, updated_at := 200 },
       { emptyDB with users :=
           [{ sub := "u1", name := "New Name", email := some "new@example.com",
              phone := some "+123", date_of_birth := none,
              address := some "1 Main St", created_at := 100, updated_at := 200 }] },
       1⟩ := by
  have h := (saveUser_upsert_existing (fun _ => true) 200 c7data
    { emptyDB with users := [c7row] } c7row (by decide) (by decide) (by decide)
    (by decide)).1
  exact h.trans (by decide)

/-- Any row the trigger has just processed satisfies the expiry
invariant. -/
theorem sessionTrigger_inv (r : SessionRow) :
    (sessionTrigger r).expires_at =
      (sessionTrigger r).expires_in.map
        (fun e => ((sessionTrigger r).created_at : Int) + e) := rfl

/-- C6: after any saveUserSession (insert or on-conflict update branch),
every user_sessions row satisfies expires_at = created_at + expires_in
seconds; a returned row created with expires_in = 3600 has expires_at
exactly 3600 seconds (one hour) after its created_at; and the INSERT's
column list never mentions expires_at — only the trigger computes it. -/
theorem session_expires_at_invariant (userId : JSValue)
    (sessionData : String → JSValue) (now : Nat) (st : DBState)
    (h : ∀ r ∈ st.user_sessions,
      r.expires_at = r.expires_in.map (fun e => (r.created_at : Int) + e)) :
    ("expires_at" ∉ saveUserSessionColumns) ∧
    (∀ r ∈ (saveUserSessionRun userId sessionData now st).db.user_sessions,
      r.expires_at = r.expires_in.map (fun e => (r.created_at : Int) + e)) ∧
    (∀ row, (saveUserSessionRun userId sessionData now st).result = .ok row →
      row.expires_at = row.expires_in.map (fun e => (row.created_at : Int) + e) ∧
      (sessionData "expires_in" = JSValue.num 3600 →
        row.expires_at = some ((row.created_at : Int) + 3600))) := by
  refine ⟨by decide, ?_⟩
  unfold saveUserSessionRun
  cases hval : validateRequiredFields sessionData ["session_id", "access_token"] with
  | some msg =>
    dsimp only
    refine ⟨h, fun row hrow => ?_⟩
    simp at hrow
  | none =>
    dsimp only
    cases hfind : st.user_sessions.find?
        (fun r => r.session_id == textOf (sessionData "session_id")) with
    | some r0 =>
      dsimp only
      constructor
      · intro r hr
        rcases List.mem_map.1 hr with ⟨a, ha, rfl⟩
        by_cases hak : (a.session_id == textOf (sessionData "session_id")) = true
        · simp only [hak, if_pos]
          exact sessionTrigger_inv _
        · simp only [hak, Bool.false_eq_true, if_false]
          exact h a ha
      · intro row hrow
        simp only [Except.ok.injEq] at hrow
        subst hrow
        refine ⟨sessionTrigger_inv _, fun h36 => ?_⟩
        simp [sessionTrigger, toSqlInt, h36]
    | none =>
      dsimp only
      by_cases hfk : (match toSqlText userId with
          | some s => !st.users.any (fun u => u.sub == s)
          | none => false) = true
      · rw [if_pos hfk]
        refine ⟨h, fun row hrow => ?_⟩
        simp at hrow
      · rw [if_neg hfk]
        constructor
        · intro r hr
          rcases List.mem_append.1 hr with hr | hr
          · exact h r hr
          · rcases List.mem_singleton.1 hr with rfl
            exact sessionTrigger_inv _
        · intro row hrow
          simp only [Except.ok.injEq] at hrow
          subst hrow
          refine ⟨sessionTrigger_inv _, fun h36 => ?_⟩
          simp [sessionTrigger, toSqlInt, h36]

/-- A session payload with expires_in = 3600 for the C6 witness. -/
def c6data : String → JSValue := fun g =>
  if g = "session_id" then JSValue.str "sess-1"
  else if g = "access_token" then JSValue.str "tok-abc"
  else if g = "expires_in" then JSValue.num 3600
  else JSValue.undefined

/-- Witness for C6: a concrete session insert with expires_in = 3600 on
the empty database. -/
theorem session_expires_at_invariant_witness :
    ("expires_at" ∉ saveUserSessionColumns) ∧
    (∀ r ∈ (saveUserSessionRun JSValue.null c6data 1000 emptyDB).db.user_sessions,
      r.expires_at = r.expires_in.map (fun e => (r.created_at : Int) + e)) ∧
    (∀ row, (saveUserSessionRun JSValue.null c6data 1000 emptyDB).result = .ok row →
      row.expires_at = row.expires_in.map (fun e => (row.created_at : Int) + e) ∧
      (c6data "expires_in" = JSValue.num 3600 →
        row.expires_at = some ((row.created_at : Int) + 3600))) :=
  session_expires_at_invariant JSValue.null c6data 1000 emptyDB
    (by intro r hr; exact absurd hr (List.not_mem_nil r))

/-- The licence category already stored when the C3 counterexample runs. -/
def c3cat : CategoryRow :=
  { category_code := "B", category_label := "B",
    description := "Light Motor Car (up to 3500 kg)", fee := 2500,
    min_age := some 18, vehicle_type := some "Light Vehicle",
    is_active := true, created_at := 0, updated_at := 0 }

/-- A database already holding licence category B. -/
def c3state : DBState := { emptyDB with licence_categories := [c3cat] }

/-- A valid addLicenceCategory payload reusing the existing code B. -/
def c3catData : String → JSValue := fun g =>
  if g = "category_code" then JSValue.str "B"
  else if g = "category_label" then JSValue.str "B revised"
  else if g = "description" then JSValue.str "Light Motor Car, revised"
  else if g = "fee" then JSValue.num 2600
  else JSValue.undefined

/-- C3 counterexample: the LicenceCategory create operation
(addLicenceCategory) is not an upsert: invoking it with an
already-existing category_code does not update the row in place but fails
with the duplicate-entry error (its INSERT carries no ON CONFLICT
clause), so it is false that every entity except Application is created
via upsert-on-conflict. -/
theorem addLicenceCategory_existing_key_fails :
    addLicenceCategoryRun c3catData 5 c3state =
      ⟨.error "Failed to add licence category: Duplicate entry: Record already exists",
       c3state, 1⟩ := by decide

/-- C3 amended: the User, UserSession and MedicalCertificate create
operations use INSERT ... ON CONFLICT DO UPDATE keyed by the entity's
unique identifier — a second invocation with an existing key succeeds and
updates the row in place (no row is added) — while both Application
creation and the addLicenceCategory operation are insert-only and fail
with the duplicate-entry error on an existing key. -/
theorem create_upsert_vs_insert_only
    (isDate : String → Bool) (now : Nat) (st : DBState)
    (userData sessionData certData categoryData applicationData : String → JSValue)
    (sessUserId certUserId : JSValue) (mcid : String)
    (ru : UserRow) (rs : SessionRow) (rc : CertRow)
    (huv : validateRequiredFields userData ["sub", "name"] = none)
    (hue : isValidEmailJS (userData "email") = true)
    (hud : (jsTruthy (userData "date_of_birth") &&
      !jsDateParses isDate (userData "date_of_birth")) = false)
    (huf : st.users.find? (fun r => r.sub == textOf (userData "sub")) = some ru)
    (hsv : validateRequiredFields sessionData ["session_id", "access_token"] = none)
    (hsf : st.user_sessions.find?
      (fun r => r.session_id == textOf (sessionData "session_id")) = some rs)
    (hcv : validateRequiredFields certData
      ["certificate_id", "issued_date", "expiry_date", "doctor_name", "hospital"] = none)
    (hcf : st.medical_certificates.find?
      (fun r => r.certificate_id == textOf (certData "certificate_id")) = some rc)
    (hgv : validateRequiredFields categoryData
      ["category_code", "category_label", "description", "fee"] = none)
    (hgfee : (match categoryData "fee" with
      | JSValue.num n => decide (n ≤ 0)
      | _ => false) = false)
    (hgage : (jsTruthy (categoryData "min_age") &&
      (match categoryData "min_age" with
       | JSValue.num n => decide (n < 16) || decide (n > 100)
       | _ => false)) = false)
    (hgdup : st.licence_categories.any
      (fun r => r.category_code == textOf (categoryData "category_code")) = true)
    (hav : validateRequiredFields applicationData saveApplicationRequiredFields = none)
    (hasc : (!jsIsArray (applicationData "selectCategories") &&
      jsTypeof (applicationData "selectCategories") != "object") = false)
    (hat : (match (match applicationData "total_amount" with
        | JSValue.undefined => JSValue.num 0
        | v => v) with
      | JSValue.num n => decide (n < 0)
      | _ => false) = false)
    (hast : statusInSet (match applicationData "status" with
      | JSValue.undefined => JSValue.str "pending"
      | v => v) = true)
    (hawt : (jsTruthy (applicationData "writtenTest") &&
      jsTypeof (applicationData "writtenTest") != "object") = false)
    (hapt : (jsTruthy (applicationData "practicalTest") &&
      jsTypeof (applicationData "practicalTest") != "object") = false)
    (hmcid : toSqlText (applicationData "medical_certificate_id") = some mcid)
    (hadup : st.applications.any
      (fun a => a.application_id == textOf (applicationData "application_id")) = true) :
    ((∃ row, (saveUserRun isDate now userData st).result = .ok row) ∧
     (saveUserRun isDate now userData st).db.users.length = st.users.length) ∧
    ((∃ row, (saveUserSessionRun sessUserId sessionData now st).result = .ok row) ∧
     (saveUserSessionRun sessUserId sessionData now st).db.user_sessions.length =
       st.user_sessions.length) ∧
    ((∃ row, (saveMedicalCertificateRun certUserId certData now st).result = .ok row) ∧
     (saveMedicalCertificateRun certUserId certData now st).db.medical_certificates.length =
       st.medical_certificates.length) ∧
    addLicenceCategoryRun categoryData now st =
      ⟨.error "Failed to add licence category: Duplicate entry: Record already exists",
       st, 1⟩ ∧
    saveApplicationRun applicationData now st =
      ⟨.error "Failed to save application: Duplicate entry: Record already exists",
       st, 1⟩ := by
  refine ⟨⟨?_, ?_⟩, ⟨?_, ?_⟩, ⟨?_, ?_⟩, ?_, ?_⟩
  · simp [saveUserRun, huv, hue, hud, huf]
  · simp [saveUserRun, huv, hue, hud, huf]
  · simp [saveUserSessionRun, hsv, hsf]
  · simp [saveUserSessionRun, hsv, hsf]
  · simp [saveMedicalCertificateRun, hcv, hcf]
  · simp [saveMedicalCertificateRun, hcv, hcf]
  · simp [addLicenceCategoryRun, hgv, hgfee, hgage, hgdup]
  · simp [saveApplicationRun, hav, hasc, hat, hast, hawt, hapt, hmcid, hadup]

/-- Stored user row for the C3 witness. -/
def c3urow : UserRow :=
  { sub := "u1", name := "N", email := none, phone := none,
    date_of_birth := none, address := none, created_at := 1, updated_at := 1 }

/-- Stored session row for the C3 witness. -/
def c3srow : SessionRow :=
  { sub := some "u1", session_id := "s1", access_token := some "t",
    token_type := none, expires_in := some 3600, scope := none,
    created_at := 1, expires_at := some 3601 }

/-- Stored medical certificate row for the C3 witness. -/
def c3crow : CertRow :=
  { sub := some "u1", certificate_id := "M1", issued_date := "2024-01-01",
    expiry_date := "2025-01-01", doctor_name := "Dr", hospital := "H",
    blood_group := none, is_fit_to_drive := none, vision_status := none,
    hearing_status := none, remarks := none, created_at := 1, updated_at := 1 }

/-- Stored application row for the C3 witness. -/
def c3arow : AppRow :=
  { sub := "u1", application_id := "APP1", medical_certificate_id := "M1",
    full_name := "John", email := "j@x.io", phone := none,
    date_of_birth := "1990-01-01", doctor_name := "Dr", hospital := "H",
    issued_date := "2024-01-01", expiry_date := "2025-01-01",
    written_test := none, practical_test := none,
    selected_categories := JSValue.arr JSList.nil, total_amount := 0,
    payment_reference_id := none, payment_transaction_id := none,
    status := "pending", created_at := 1, updated_at := 1 }

/-- A database holding one row of each entity for the C3 witness. -/
def c3wstate : DBState :=
  { tables := [], users := [c3urow], licence_categories := [c3cat],
    user_sessions := [c3srow], applications := [c3arow],
    medical_certificates := [c3crow] }

/-- Second saveUser payload with the existing sub. -/
def c3userData : String → JSValue := fun g =>
  if g = "sub" then JSValue.str "u1"
  else if g = "name" then JSValue.str "N2"
  else JSValue.undefined

/-- Second saveUserSession payload with the existing session_id. -/
def c3sessData : String → JSValue := fun g =>
  if g = "session_id" then JSValue.str "s1"
  else if g = "access_token" then JSValue.str "t2"
  else JSValue.undefined

/-- Second saveMedicalCertificate payload with the existing
certificate_id. -/
def c3certData : String → JSValue := fun g =>
  if g = "certificate_id" then JSValue.str "M1"
  else if g = "issued_date" then JSValue.str "2024-02-01"
  else if g = "expiry_date" then JSValue.str "2025-02-01"
  else if g = "doctor_name" then JSValue.str "Dr2"
  else if g = "hospital" then JSValue.str "H2"
  else JSValue.undefined

/-- Second saveApplication payload with the existing application_id. -/
def c3appData : String → JSValue := fun g =>
  if g = "sub" then JSValue.str "u1"
  else if g = "application_id" then JSValue.str "APP1"
  else if g = "medical_certificate_id" then JSValue.str "M1"
  else if g = "selectCategories" then JSValue.arr JSList.nil
  else if g = "fullName" then JSValue.str "John"
  else if g = "email" then JSValue.str "j@x.io"
  else if g = "dob" then JSValue.str "1990-01-01"
  else if g = "doctorName" then JSValue.str "Dr"
  else if g = "hospital" then JSValue.str "H"
  else if g = "issuedDate" then JSValue.str "2024-01-01"
  else if g = "expiryDate" then JSValue.str "2025-01-01"
  else JSValue.undefined

/-- Witness for the amended C3, on a database holding one row of each
entity: the three upserts succeed without adding rows; the two plain
inserts fail with the duplicate-entry error. -/
theorem create_upsert_vs_insert_only_witness :
    ((∃ row, (saveUserRun (fun _ => true) 9 c3userData c3wstate).result = .ok row) ∧
     (saveUserRun (fun _ => true) 9 c3userData c3wstate).db.users.length =
       c3wstate.users.length) ∧
    ((∃ row, (saveUserSessionRun JSValue.null c3sessData 9 c3wstate).result = .ok row) ∧
     (saveUserSessionRun JSValue.null c3sessData 9 c3wstate).db.user_sessions.length =
       c3wstate.user_sessions.length) ∧
    ((∃ row, (saveMedicalCertificateRun (JSValue.str "u1") c3certData 9
        c3wstate).result = .ok row) ∧
     (saveMedicalCertificateRun (JSValue.str "u1") c3certData 9
        c3wstate).db.medical_certificates.length =
       c3wstate.medical_certificates.length) ∧
    addLicenceCategoryRun c3catData 9 c3wstate =
      ⟨.error "Failed to add licence category: Duplicate entry: Record already exists",
       c3wstate, 1⟩ ∧
    saveApplicationRun c3appData 9 c3wstate =
      ⟨.error "Failed to save application: Duplicate entry: Record already exists",
       c3wstate, 1⟩ :=
  create_upsert_vs_insert_only (fun _ => true) 9 c3wstate c3userData c3sessData
    c3certData c3catData c3appData JSValue.null (JSValue.str "u1") "M1"
    c3urow c3srow c3crow
    (by decide) (by decide) (by decide) (by decide) (by decide) (by decide)
    (by decide) (by decide) (by decide) (by decide) (by decide) (by decide)
    (by decide) (by decide) (by decide) (by decide) (by decide) (by decide)
    (by decide) (by decide)

/-- C5: when the filtered page query or its matching count query fails
(for any reason the oracle chooses) and the fallback pair succeeds, the
listing handler surfaces no error: it responds with the unfiltered
paginated listing — same limit and offset, ordered by created_at
descending — and the unfiltered total count. -/
theorem listing_filtered_failure_fallback (p : ListParams) (st : DBState)
    (fails : String → Bool)
    (hfail : fails "Get applications" = true ∨ fails "Count applications" = true)
    (h1 : fails "Get applications simple" = false)
    (h2 : fails "Count applications simple" = false) :
    listApplicationsHandler p st fails = .ok (unfilteredListing p.page p.limit st) := by
  unfold listApplicationsHandler
  rcases hfail with h | h <;> simp [h, h1, h2]

/-- An application row stored when the C5 witness runs. -/
def c5row : AppRow :=
  { sub := "u5", application_id := "APP5", medical_certificate_id := "M5",
    full_name := "Eve", email := "e@x.io", phone := none,
    date_of_birth := "1991-01-01", doctor_name := "Dr", hospital := "H",
    issued_date := "2024-01-01", expiry_date := "2025-01-01",
    written_test := none, practical_test := none,
    selected_categories := JSValue.arr JSList.nil, total_amount := 0,
    payment_reference_id := none, payment_transaction_id := none,
    status := "pending", created_at := 3, updated_at := 3 }

/-- The database of the C5 witness. -/
def c5state : DBState := { emptyDB with applications := [c5row] }

/-- Witness for C5: with the filtered page query failing and the fallback
succeeding, the handler returns the unfiltered listing. -/
theorem listing_filtered_failure_fallback_witness :
    ((fun l => l == "Get applications") "Get applications" = true ∨
      (fun l => l == "Get applications") "Count applications" = true) ∧
    ((fun l => l == "Get applications") "Get applications simple" = false) ∧
    ((fun l => l == "Get applications") "Count applications simple" = false) ∧
    listApplicationsHandler { search := some "no-such-term" } c5state
        (fun l => l == "Get applications") =
      .ok (unfilteredListing 1 100 c5state) :=
  ⟨Or.inl (by decide), by decide, by decide,
   listing_filtered_failure_fallback { search := some "no-such-term" } c5state
     (fun l => l == "Get applications") (Or.inl (by decide)) (by decide) (by decide)⟩

/-- Matching a wildcard-free literal followed by a trailing percent is
exactly a case-insensitive prefix test. -/
theorem lit_pattern_match (t : List Char) (ht : t.all plainPatternChar = true) :
    ∀ s, likeMatch (t ++ [ '%' ]) s =
      (t.map Char.toLower).isPrefixOf (s.map Char.toLower) := by
  induction t with
  | nil =>
    intro s
    have h1 : likeMatch ([] ++ [ '%' ]) s = true := by
      simp only [List.nil_append, likeMatch]
      rw [if_pos trivial]
      exact List.any_eq_true.2 ⟨[], (List.mem_tails _ _).2 List.nil_suffix, rfl⟩
    rw [h1]
    simp [List.isPrefixOf]
  | cons a t ih =>
    intro s
    rw [List.all_cons, Bool.and_eq_true] at ht
    have hpc : a ≠ '%' := by
      intro hEq
      rw [hEq] at ht
      exact absurd ht.1 (by decide)
    have hus : a ≠ '_' := by
      intro hEq
      rw [hEq] at ht
      exact absurd ht.1 (by decide)
    cases s with
    | nil =>
      show likeMatch (a :: (t ++ [ '%' ])) [] = _
      simp only [likeMatch]
      rw [if_neg hpc]
      simp [List.isPrefixOf]
    | cons c s2 =>
      show likeMatch (a :: (t ++ [ '%' ])) (c :: s2) = _
      simp only [likeMatch]
      rw [if_neg hpc, if_neg hus]
      rw [ih ht.2 s2]
      simp [List.isPrefixOf]

/-- An ILIKE match against a percent-wrapped wildcard-free term implies
case-insensitive substring containment. -/
theorem ilike_substring (term col : String)
    (ht : term.data.all plainPatternChar = true)
    (h : ilikeContains term col = true) : containsCI term col = true := by
  unfold ilikeContains at h
  have h0 : likeMatch ('%' :: (term.data ++ [ '%' ])) col.data = true := h
  have h1 : col.data.tails.any
      (fun s2 => likeMatch (term.data ++ [ '%' ]) s2) = true := by
    simpa only [likeMatch, if_pos] using h0
  obtain ⟨s2, hmem, hm⟩ := List.any_eq_true.1 h1
  rw [lit_pattern_match term.data ht s2] at hm
  unfold containsCI
  refine List.any_eq_true.2 ⟨s2.map Char.toLower, ?_, hm⟩
  exact (List.mem_tails _ _).2 (((List.mem_tails _ _).1 hmem).map Char.toLower)

/-- Insertion yields no rows beyond the inserted one and the old ones. -/
theorem mem_insertRow (le : AppRow → AppRow → Bool) (a x : AppRow)
    (l : List AppRow) (h : x ∈ insertRow le a l) : x = a ∨ x ∈ l := by
  induction l with
  | nil =>
    simp [insertRow] at h
    exact Or.inl h
  | cons b l ih =>
    unfold insertRow at h
    by_cases hc : le a b = true
    · rw [if_pos hc] at h
      rcases List.mem_cons.1 h with h | h
      · exact Or.inl h
      · exact Or.inr h
    · rw [if_neg hc] at h
      rcases List.mem_cons.1 h with h | h
      · exact Or.inr (List.mem_cons.2 (Or.inl h))
      · rcases ih h with h | h
        · exact Or.inl h
        · exact Or.inr (List.mem_cons.2 (Or.inr h))

/-- Sorting yields no rows that were not in the list. -/
theorem mem_sortRows (le : AppRow → AppRow → Bool) (x : AppRow) :
    ∀ l : List AppRow, x ∈ sortRows le l → x ∈ l := by
  intro l
  induction l with
  | nil => intro h; simp [sortRows] at h
  | cons a l ih =>
    intro h
    unfold sortRows at h
    rcases mem_insertRow le a x _ h with h | h
    · exact h ▸ List.mem_cons_self a l
    · exact List.mem_cons.2 (Or.inr (ih h))

/-- C9 amended: with a non-empty search term free of the ILIKE wildcard
and escape characters (% _ \), every application in the returned page
(when the filtered queries execute) has the term as a case-insensitive
substring of application_id, medical_certificate_id, sub, full_name or
email. -/
theorem search_results_match (p : ListParams) (st : DBState)
    (fails : String → Bool) (s : String) (resp : ListResponse) (a : AppRow)
    (hs : p.search = some s) (hne : s ≠ "")
    (hplain : s.data.all plainPatternChar = true)
    (h1 : fails "Get applications" = false)
    (h2 : fails "Count applications" = false)
    (hrun : listApplicationsHandler p st fails = .ok resp)
    (ha : a ∈ resp.applications) :
    containsCI s a.application_id = true ∨
    containsCI s a.medical_certificate_id = true ∨
    containsCI s a.sub = true ∨
    containsCI s a.full_name = true ∨
    containsCI s a.email = true := by
  unfold listApplicationsHandler at hrun
  rw [h1, h2] at hrun
  simp only [Bool.or_self, Bool.false_eq_true, if_false, Except.ok.injEq] at hrun
  subst hrun
  have ha1 : a ∈ (st.applications.filter
      (fun a => statusCond p.status a && searchCond p.search a)) := by
    have hb : a ∈ paginate p.limit ((p.page - 1) * p.limit)
        (orderRows (if validSortColumns.contains p.sortBy then p.sortBy
          else "created_at") (p.sortOrder.data.map Char.toUpper == "ASC".data)
          (st.applications.filter
            (fun a => statusCond p.status a && searchCond p.search a))) := ha
    unfold paginate at hb
    have hc := List.drop_subset _ _ (List.take_subset _ _ hb)
    exact mem_sortRows _ _ _ hc
  have hcond := (List.mem_filter.1 ha1).2
  rw [Bool.and_eq_true] at hcond
  have hsearch := hcond.2
  rw [hs] at hsearch
  unfold searchCond at hsearch
  dsimp only at hsearch
  rw [if_neg hne] at hsearch
  simp only [Bool.or_eq_true] at hsearch
  rcases hsearch with ((((h | h) | h) | h) | h)
  · exact Or.inl (ilike_substring s _ hplain h)
  · exact Or.inr (Or.inl (ilike_substring s _ hplain h))
  · exact Or.inr (Or.inr (Or.inl (ilike_substring s _ hplain h)))
  · exact Or.inr (Or.inr (Or.inr (Or.inl (ilike_substring s _ hplain h))))
  · exact Or.inr (Or.inr (Or.inr (Or.inr (ilike_substring s _ hplain h))))

/-- The stored application of the C9 witness: the term app occurs
case-insensitively in its application_id. -/
def c9wrow : AppRow :=
  { sub := "u9", application_id := "XAPP7", medical_certificate_id := "M9",
    full_name := "Greg", email := "g@x.io", phone := none,
    date_of_birth := "1993-01-01", doctor_name := "Dr", hospital := "H",
    issued_date := "2024-01-01", expiry_date := "2025-01-01",
    written_test := none, practical_test := none,
    selected_categories := JSValue.arr JSList.nil, total_amount := 0,
    payment_reference_id := none, payment_transaction_id := none,
    status := "pending", created_at := 2, updated_at := 2 }

/-- The database of the C9 witness. -/
def c9wstate : DBState := { emptyDB with applications := [c9wrow] }

/-- Witness for the amended C9: searching app returns the stored row, and
the theorem concludes that the term is a substring of one of its five
searched columns. -/
theorem search_results_match_witness :
    containsCI "app" c9wrow.application_id = true ∨
    containsCI "app" c9wrow.medical_certificate_id = true ∨
    containsCI "app" c9wrow.sub = true ∨
    containsCI "app" c9wrow.full_name = true ∨
    containsCI "app" c9wrow.email = true :=
  search_results_match { search := some "app" } c9wstate (fun _ => false) "app"
    ⟨[c9wrow], mkPagination 1 100 1⟩ c9wrow rfl (by decide) (by decide) rfl rfl
    (by decide) (by decide)

/-- The stored application of the C9 counterexample: none of its five
searched columns contains an underscore. -/
def c9xrow : AppRow :=
  { sub := "userx", application_id := "APPX", medical_certificate_id := "MEDX",
    full_name := "John Doe", email := "jd@x.io", phone := none,
    date_of_birth := "1990-01-01", doctor_name := "Dr", hospital := "H",
    issued_date := "2024-01-01", expiry_date := "2025-01-01",
    written_test := none, practical_test := none,
    selected_categories := JSValue.arr JSList.nil, total_amount := 0,
    payment_reference_id := none, payment_transaction_id := none,
    status := "pending", created_at := 2, updated_at := 2 }

/-- The database of the C9 counterexample. -/
def c9xstate : DBState := { emptyDB with applications := [c9xrow] }

/-- C9 counterexample: the search term is bound into an ILIKE pattern, so
its wildcards keep their meaning: searching for the single character _
returns a row (underscore matches any one character) although the term is
a case-insensitive substring of none of the five searched columns —
refuting the claim for arbitrary non-empty search terms. -/
theorem search_wildcard_counterexample :
    listApplicationsHandler { search := some "_" } c9xstate (fun _ => false) =
      .ok ⟨[c9xrow], mkPagination 1 100 1⟩ ∧
    (containsCI "_" c9xrow.application_id ||
     containsCI "_" c9xrow.medical_certificate_id ||
     containsCI "_" c9xrow.sub ||
     containsCI "_" c9xrow.full_name ||
     containsCI "_" c9xrow.email) = false :=
  ⟨by decide, by decide⟩
